import Mathlib

/-!
Verification of the hand-gesture recognition engine of
`day_5_the_homecoming_board` (file `src/hand_tracking/hand_tracker.py`, and
the swipe detectors of `examples/advanced_gestures.py`).

Landmarks are pixel points, modelled as `Int × Int` (the Python code builds
them with `int(landmark.x * w)`).  Fallible Python code (list indexing,
division, `min` of a sequence) is modelled in `Except PyError`.
-/

/-- Kinds of Python exception relevant to the hand-tracking code.
`emptyInput` stands for the `EmptyInputError` class that the spec names;
no such class exists anywhere in the repository, the constructor exists
only so that statements about it can be written down. -/
inductive PyError where
  | indexError
  | zeroDivision
  | valueError
  | emptyInput
  deriving DecidableEq

/-- Python list indexing `landmarks[i]` (nonnegative index): `IndexError`
when `i` is out of range. -/
def idx (l : List (Int × Int)) (i : Nat) : Except PyError (Int × Int) :=
  match l[i]? with
  | some p => Except.ok p
  | none => Except.error PyError.indexError

/-- Total variant of `idx` used to state values of successful lookups. -/
def nthD (l : List (Int × Int)) (i : Nat) : Int × Int :=
  l.getD i (0, 0)

/-- Vertical finger test of `HandTracker.is_finger_up` for the four
non-thumb fingers: `landmarks[t][1] < landmarks[p][1]`. -/
def upByY (l : List (Int × Int)) (t p : Nat) : Except PyError Bool :=
  match idx l t, idx l p with
  | Except.ok a, Except.ok b => Except.ok (decide (a.2 < b.2))
  | Except.error e, _ => Except.error e
  | _, Except.error e => Except.error e

/-- Horizontal thumb test of `HandTracker.is_finger_up`:
`landmarks[t][0] > landmarks[p][0]`. -/
def upByX (l : List (Int × Int)) (t p : Nat) : Except PyError Bool :=
  match idx l t, idx l p with
  | Except.ok a, Except.ok b => Except.ok (decide (b.1 < a.1))
  | Except.error e, _ => Except.error e
  | _, Except.error e => Except.error e

/-- `HandTracker.is_finger_up`: thumb compares tip (4) and IP joint (3)
horizontally, the other fingers compare tip and PIP joint vertically;
an unrecognized finger name yields `False`. -/
def is_finger_up (l : List (Int × Int)) (finger : String) : Except PyError Bool :=
  if finger = "thumb" then upByX l 4 3
  else if finger = "index" then upByY l 8 6
  else if finger = "middle" then upByY l 12 10
  else if finger = "ring" then upByY l 16 14
  else if finger = "pinky" then upByY l 20 18
  else Except.ok false

def boolToNat (b : Bool) : Nat := if b then 1 else 0

/-- `HandTracker.count_fingers`: the number of up fingers, querying
thumb, index, middle, ring, pinky in that order. -/
def count_fingers (l : List (Int × Int)) : Except PyError Nat :=
  match is_finger_up l "thumb", is_finger_up l "index", is_finger_up l "middle",
      is_finger_up l "ring", is_finger_up l "pinky" with
  | Except.ok t, Except.ok i, Except.ok m, Except.ok r, Except.ok p =>
      Except.ok (boolToNat t + boolToNat i + boolToNat m + boolToNat r + boolToNat p)
  | Except.error e, _, _, _, _ => Except.error e
  | _, Except.error e, _, _, _ => Except.error e
  | _, _, Except.error e, _, _ => Except.error e
  | _, _, _, Except.error e, _ => Except.error e
  | _, _, _, _, Except.error e => Except.error e

/-- The classification part of `HandTracker.recognize_gesture`
(lines 179-204): the raw static label of one frame, before the history
buffer is touched.  `and` in the count-2 branch short-circuits. -/
def raw_gesture (l : List (Int × Int)) : Except PyError String :=
  match count_fingers l with
  | Except.error e => Except.error e
  | Except.ok finger_count =>
    if finger_count = 0 then Except.ok "fist"
    else if finger_count = 1 then
      match is_finger_up l "index" with
      | Except.error e => Except.error e
      | Except.ok iu =>
        if iu then Except.ok "point"
        else
          match is_finger_up l "thumb" with
          | Except.error e => Except.error e
          | Except.ok tu => if tu then Except.ok "thumbs_up" else Except.ok "one"
    else if finger_count = 2 then
      match is_finger_up l "index" with
      | Except.error e => Except.error e
      | Except.ok iu =>
        if iu then
          match is_finger_up l "middle" with
          | Except.error e => Except.error e
          | Except.ok mu => if mu then Except.ok "peace" else Except.ok "two"
        else Except.ok "two"
    else if finger_count = 3 then Except.ok "three"
    else if finger_count = 4 then Except.ok "four"
    else if finger_count = 5 then Except.ok "open_hand"
    else Except.ok "unknown"

/-- The per-finger up/down state of one frame (the spec's FingerState),
computed with total lookups; it agrees with the fallible code on frames
of at least 21 landmarks. -/
structure FingerState where
  thumb : Bool
  index : Bool
  middle : Bool
  ring : Bool
  pinky : Bool
  deriving DecidableEq

def finger_state (l : List (Int × Int)) : FingerState :=
  ⟨decide ((nthD l 3).1 < (nthD l 4).1),
   decide ((nthD l 8).2 < (nthD l 6).2),
   decide ((nthD l 12).2 < (nthD l 10).2),
   decide ((nthD l 16).2 < (nthD l 14).2),
   decide ((nthD l 20).2 < (nthD l 18).2)⟩

def FingerState.count (fs : FingerState) : Nat :=
  boolToNat fs.thumb + boolToNat fs.index + boolToNat fs.middle +
    boolToNat fs.ring + boolToNat fs.pinky

/-- The pure classifier extracted from `raw_gesture`, as the code orders
its branches. -/
def classify_code (fs : FingerState) : String :=
  if fs.count = 0 then "fist"
  else if fs.count = 1 then
    if fs.index then "point" else if fs.thumb then "thumbs_up" else "one"
  else if fs.count = 2 then
    if fs.index then (if fs.middle then "peace" else "two") else "two"
  else if fs.count = 3 then "three"
  else if fs.count = 4 then "four"
  else if fs.count = 5 then "open_hand"
  else "unknown"

/-- The static classifier as worded by the spec's precedence list (first
match wins); the refinement target `raw_gesture` is compared with. -/
def classify_spec (fs : FingerState) : String :=
  if fs.count = 0 then "fist"
  else if fs.count = 1 ∧ fs.index then "point"
  else if fs.count = 1 ∧ fs.thumb then "thumbs_up"
  else if fs.count = 1 then "one"
  else if fs.count = 2 ∧ fs.index ∧ fs.middle then "peace"
  else if fs.count = 2 then "two"
  else if fs.count = 3 then "three"
  else if fs.count = 4 then "four"
  else if fs.count = 5 then "open_hand"
  else "unknown"

/-- A 21-landmark frame with every point at the origin: every finger is
down, so its raw label is `fist`. -/
def fist_lms : List (Int × Int) := List.replicate 21 (0, 0)

/-- A 21-landmark frame with only the index tip (landmark 8) raised
(image y grows downward): its raw label is `point`. -/
def point_lms : List (Int × Int) :=
  (List.replicate 21 ((0 : Int), (0 : Int))).set 8 (0, -10)

example : raw_gesture fist_lms = Except.ok "fist" := rfl
example : raw_gesture point_lms = Except.ok "point" := rfl
example : raw_gesture (List.replicate 22 ((0 : Int), (0 : Int))) = Except.ok "fist" := rfl
example : raw_gesture (List.replicate 10 ((0 : Int), (0 : Int))) = Except.error PyError.indexError := rfl

theorem idx_ok_of_lt {l : List (Int × Int)} {i : Nat} (h : i < l.length) :
    idx l i = Except.ok (nthD l i) := by
  simp [idx, nthD, List.getElem?_eq_getElem h, List.getD_eq_getElem?_getD]

theorem idx_err_of_le {l : List (Int × Int)} {i : Nat} (h : l.length ≤ i) :
    idx l i = Except.error PyError.indexError := by
  simp [idx, List.getElem?_eq_none h]

theorem idx_ok_or_err (l : List (Int × Int)) (i : Nat) :
    idx l i = Except.ok (nthD l i) ∨ idx l i = Except.error PyError.indexError := by
  rcases Nat.lt_or_ge i l.length with h | h
  · exact Or.inl (idx_ok_of_lt h)
  · exact Or.inr (idx_err_of_le h)

theorem upByY_eq {l : List (Int × Int)} {t p : Nat} (h1 : t < l.length) (h2 : p < l.length) :
    upByY l t p = Except.ok (decide ((nthD l t).2 < (nthD l p).2)) := by
  simp [upByY, idx_ok_of_lt h1, idx_ok_of_lt h2]

theorem upByX_eq {l : List (Int × Int)} {t p : Nat} (h1 : t < l.length) (h2 : p < l.length) :
    upByX l t p = Except.ok (decide ((nthD l p).1 < (nthD l t).1)) := by
  simp [upByX, idx_ok_of_lt h1, idx_ok_of_lt h2]

theorem upByY_ok_or_err (l : List (Int × Int)) (t p : Nat) :
    (∃ b, upByY l t p = Except.ok b) ∨ upByY l t p = Except.error PyError.indexError := by
  rcases idx_ok_or_err l t with h1 | h1 <;> rcases idx_ok_or_err l p with h2 | h2 <;>
    simp [upByY, h1, h2]

theorem upByX_ok_or_err (l : List (Int × Int)) (t p : Nat) :
    (∃ b, upByX l t p = Except.ok b) ∨ upByX l t p = Except.error PyError.indexError := by
  rcases idx_ok_or_err l t with h1 | h1 <;> rcases idx_ok_or_err l p with h2 | h2 <;>
    simp [upByX, h1, h2]

theorem finger_up_thumb (l : List (Int × Int)) : is_finger_up l "thumb" = upByX l 4 3 := rfl

theorem finger_up_index (l : List (Int × Int)) : is_finger_up l "index" = upByY l 8 6 := rfl

theorem finger_up_middle (l : List (Int × Int)) : is_finger_up l "middle" = upByY l 12 10 := rfl

theorem finger_up_ring (l : List (Int × Int)) : is_finger_up l "ring" = upByY l 16 14 := rfl

theorem finger_up_pinky (l : List (Int × Int)) : is_finger_up l "pinky" = upByY l 20 18 := rfl

theorem count_fingers_eq {l : List (Int × Int)} (h : 21 ≤ l.length) :
    count_fingers l = Except.ok (finger_state l).count := by
  have h3 : (3 : Nat) < l.length := by omega
  have h4 : (4 : Nat) < l.length := by omega
  have h6 : (6 : Nat) < l.length := by omega
  have h8 : (8 : Nat) < l.length := by omega
  have h10 : (10 : Nat) < l.length := by omega
  have h12 : (12 : Nat) < l.length := by omega
  have h14 : (14 : Nat) < l.length := by omega
  have h16 : (16 : Nat) < l.length := by omega
  have h18 : (18 : Nat) < l.length := by omega
  have h20 : (20 : Nat) < l.length := by omega
  simp [count_fingers, finger_up_thumb, finger_up_index, finger_up_middle,
    finger_up_ring, finger_up_pinky, upByX_eq h4 h3, upByY_eq h8 h6,
    upByY_eq h12 h10, upByY_eq h16 h14, upByY_eq h20 h18, finger_state,
    FingerState.count]

theorem raw_gesture_eq {l : List (Int × Int)} (h : 21 ≤ l.length) :
    raw_gesture l = Except.ok (classify_code (finger_state l)) := by
  have h3 : (3 : Nat) < l.length := by omega
  have h4 : (4 : Nat) < l.length := by omega
  have h6 : (6 : Nat) < l.length := by omega
  have h8 : (8 : Nat) < l.length := by omega
  have h10 : (10 : Nat) < l.length := by omega
  have h12 : (12 : Nat) < l.length := by omega
  simp only [raw_gesture, count_fingers_eq h, classify_code, finger_up_index,
    finger_up_thumb, finger_up_middle, upByX_eq h4 h3, upByY_eq h8 h6,
    upByY_eq h12 h10, finger_state, apply_ite (@Except.ok PyError String)]

theorem classify_code_eq_spec_bool : ∀ t i m r p : Bool,
    classify_code ⟨t, i, m, r, p⟩ = classify_spec ⟨t, i, m, r, p⟩ := by decide

theorem classify_code_eq_spec (fs : FingerState) : classify_code fs = classify_spec fs := by
  cases fs
  apply classify_code_eq_spec_bool

theorem finger_ok_or_err (l : List (Int × Int)) (f : String) :
    (∃ b, is_finger_up l f = Except.ok b) ∨
      is_finger_up l f = Except.error PyError.indexError := by
  unfold is_finger_up
  split
  · rcases upByX_ok_or_err l 4 3 with ⟨b, hb⟩ | hb
    · exact Or.inl ⟨b, hb⟩
    · exact Or.inr hb
  · split
    · rcases upByY_ok_or_err l 8 6 with ⟨b, hb⟩ | hb
      · exact Or.inl ⟨b, hb⟩
      · exact Or.inr hb
    · split
      · rcases upByY_ok_or_err l 12 10 with ⟨b, hb⟩ | hb
        · exact Or.inl ⟨b, hb⟩
        · exact Or.inr hb
      · split
        · rcases upByY_ok_or_err l 16 14 with ⟨b, hb⟩ | hb
          · exact Or.inl ⟨b, hb⟩
          · exact Or.inr hb
        · split
          · rcases upByY_ok_or_err l 20 18 with ⟨b, hb⟩ | hb
            · exact Or.inl ⟨b, hb⟩
            · exact Or.inr hb
          · exact Or.inl ⟨false, rfl⟩

theorem count_fingers_err {l : List (Int × Int)} (h : l.length < 21) :
    count_fingers l = Except.error PyError.indexError := by
  have hp : is_finger_up l "pinky" = Except.error PyError.indexError := by
    rw [finger_up_pinky]
    have h20 : l.length ≤ 20 := by omega
    simp [upByY, idx_err_of_le h20]
  rcases finger_ok_or_err l "thumb" with ⟨b1, h1⟩ | h1 <;>
    rcases finger_ok_or_err l "index" with ⟨b2, h2⟩ | h2 <;>
      rcases finger_ok_or_err l "middle" with ⟨b3, h3⟩ | h3 <;>
        rcases finger_ok_or_err l "ring" with ⟨b4, h4⟩ | h4 <;>
          simp [count_fingers, h1, h2, h3, h4, hp]

theorem count_le_five (fs : FingerState) : fs.count ≤ 5 := by
  rcases fs with ⟨t, i, m, r, p⟩
  revert t i m r p
  decide

theorem classify_code_mem (fs : FingerState) :
    classify_code fs ∈ (["fist", "point", "thumbs_up", "one", "two", "peace",
      "three", "four", "open_hand"] : List String) := by
  rcases fs with ⟨t, i, m, r, p⟩
  revert t i m r p
  decide

theorem classify_code_ne_unknown (fs : FingerState) : classify_code fs ≠ "unknown" := by
  rcases fs with ⟨t, i, m, r, p⟩
  revert t i m r p
  decide

/-- C2: on every 21-landmark frame the classification part of
`recognize_gesture` returns exactly the label that the spec's precedence
list (count 0 fist; count 1 and index up point; count 1 and thumb up
thumbs_up; count 1 otherwise one; count 2 and index and middle up peace;
count 2 otherwise two; count 3 three; count 4 four; count 5 open_hand;
otherwise unknown), evaluated first match first, assigns to the frame's
finger state. -/
theorem c2_static_precedence (l : List (Int × Int)) (h : l.length = 21) :
    raw_gesture l = Except.ok (classify_spec (finger_state l)) := by
  rw [raw_gesture_eq (by omega), classify_code_eq_spec]

/-- C2 witness: the precedence theorem evaluated on the concrete
index-up frame, whose label is `point`. -/
theorem c2_static_precedence_witness :
    point_lms.length = 21 ∧
      raw_gesture point_lms = Except.ok (classify_spec (finger_state point_lms)) :=
  ⟨rfl, c2_static_precedence point_lms rfl⟩

/-- C3 counterexample: a frame of 22 landmarks (count different from 21) is
processed without any error: the raw classification returns `fist`, so the
code neither raises an `InvalidFrameError` (no such class exists) nor
refuses to process the frame. -/
theorem c3_counterexample :
    (List.replicate 22 ((0 : Int), (0 : Int))).length ≠ 21 ∧
      raw_gesture (List.replicate 22 ((0 : Int), (0 : Int))) = Except.ok "fist" :=
  ⟨by decide, rfl⟩

/-- C3 amended: a frame with fewer than 21 landmarks makes per-frame gesture
processing fail with `IndexError` (not an `InvalidFrameError`, which does not
exist in the code), while a frame with 21 or more landmarks is processed
fully and successfully. -/
theorem c3_amended_indexerror (l : List (Int × Int)) :
    (l.length < 21 → raw_gesture l = Except.error PyError.indexError) ∧
    (21 ≤ l.length → ∃ g, raw_gesture l = Except.ok g) := by
  constructor
  · intro hlt
    simp [raw_gesture, count_fingers_err hlt]
  · intro hge
    exact ⟨classify_code (finger_state l), raw_gesture_eq hge⟩

/-- C10: on every 21-landmark frame `count_fingers` returns a count of at
most 5 (and at least 0, being a natural number), hence the raw static label
is one of the nine named labels and the `unknown` branch is unreachable. -/
theorem c10_count_range_and_labels (l : List (Int × Int)) (h : l.length = 21) :
    count_fingers l = Except.ok (finger_state l).count ∧
    (finger_state l).count ≤ 5 ∧
    raw_gesture l = Except.ok (classify_code (finger_state l)) ∧
    classify_code (finger_state l) ∈ (["fist", "point", "thumbs_up", "one", "two",
      "peace", "three", "four", "open_hand"] : List String) ∧
    classify_code (finger_state l) ≠ "unknown" := by
  have hge : 21 ≤ l.length := by omega
  exact ⟨count_fingers_eq hge, count_le_five _, raw_gesture_eq hge,
    classify_code_mem _, classify_code_ne_unknown _⟩

/-- C10 witness: the range-and-labels theorem evaluated on the concrete
all-down frame, whose count is 0 and label is `fist`. -/
theorem c10_witness :
    fist_lms.length = 21 ∧
      (count_fingers fist_lms = Except.ok (finger_state fist_lms).count ∧
      (finger_state fist_lms).count ≤ 5 ∧
      raw_gesture fist_lms = Except.ok (classify_code (finger_state fist_lms)) ∧
      classify_code (finger_state fist_lms) ∈ (["fist", "point", "thumbs_up", "one",
        "two", "peace", "three", "four", "open_hand"] : List String) ∧
      classify_code (finger_state fist_lms) ≠ "unknown") :=
  ⟨rfl, c10_count_range_and_labels fist_lms rfl⟩

/-- `HandTracker.gesture_buffer_size` (set to 5 in `__init__`). -/
def gesture_buffer_size : Nat := 5

/-- The history update of `recognize_gesture` (lines 207-209): append the
raw label, then `pop(0)` once when the buffer exceeds the buffer size. -/
def push_history (h : List String) (g : String) : List String :=
  if gesture_buffer_size < (h ++ [g]).length then (h ++ [g]).tail else h ++ [g]

/-- Python `max(iterable, key=key)`: scans left to right keeping the current
maximum and replacing it only on a strictly greater key, so it returns the
first element attaining the maximal key; `None` on an empty iterable
(Python raises `ValueError` there). -/
def pyMaxKey (key : String → Nat) : List String → Option String
  | [] => none
  | x :: xs => some (xs.foldl (fun acc y => if key acc < key y then y else acc) x)

/-- `ord` enumerates Python `set(h)`: each distinct element of `h` exactly
once.  CPython's set iteration order for strings is hash-randomized, so the
embedding quantifies over every such enumeration instead of fixing one. -/
def SetOrder (h : List String) (ord : List String) : Prop :=
  ord.Nodup ∧ (∀ x ∈ ord, x ∈ h) ∧ (∀ x ∈ h, x ∈ ord)

instance (h ord : List String) : Decidable (SetOrder h ord) := by
  unfold SetOrder
  infer_instance

/-- The value `recognize_gesture` returns (lines 211-213):
`max(set(history), key=history.count)` over the updated history `h`,
with `ord` the iteration order of `set(history)`. -/
def stabilized_label (h : List String) (ord : List String) : Option String :=
  pyMaxKey (fun g => h.count g) ord

theorem pyMaxKey_foldl_eq (key : String → Nat) (m : String) :
    ∀ (xs : List String) (acc : String),
      (acc = m ∨ (key acc < key m ∧ m ∈ xs)) →
      (∀ y ∈ xs, y = m ∨ key y < key m) →
      xs.foldl (fun a y => if key a < key y then y else a) acc = m := by
  intro xs
  induction xs with
  | nil =>
    intro acc hacc _
    rcases hacc with h | ⟨_, h⟩
    · simpa using h
    · cases h
  | cons y ys ih =>
    intro acc hacc hk
    have hky := hk y (by simp)
    have hkys : ∀ z ∈ ys, z = m ∨ key z < key m := fun z hz => hk z (by simp [hz])
    simp only [List.foldl_cons]
    refine ih _ ?_ hkys
    rcases hky with rfl | hylt
    · rcases hacc with rfl | ⟨hlt, _⟩
      · left
        split <;> rfl
      · left
        rw [if_pos hlt]
    · have hym : y ≠ m := fun he => absurd (he ▸ hylt) (lt_irrefl _)
      rcases hacc with rfl | ⟨hlt, hmem⟩
      · left
        rw [if_neg (not_lt.mpr (le_of_lt hylt))]
      · have hmem2 : m ∈ ys := by
          rcases List.mem_cons.mp hmem with h | h
          · exact absurd h.symm hym
          · exact h
        right
        refine ⟨?_, hmem2⟩
        split
        · exact hylt
        · exact hlt

theorem pyMaxKey_eq_max (key : String → Nat) (ord : List String) (m : String)
    (hm : m ∈ ord) (hk : ∀ y ∈ ord, y = m ∨ key y < key m) :
    pyMaxKey key ord = some m := by
  cases ord with
  | nil => cases hm
  | cons a xs =>
    simp only [pyMaxKey, Option.some.injEq]
    refine pyMaxKey_foldl_eq key m xs a ?_ (fun y hy => hk y (List.mem_cons_of_mem a hy))
    rcases List.mem_cons.mp hm with h | h
    · exact Or.inl h.symm
    · rcases hk a (by simp) with h2 | h2
      · exact Or.inl h2
      · exact Or.inr ⟨h2, h⟩

theorem push_history_getLast (h : List String) (g : String) :
    (push_history h g).getLast? = some g := by
  simp only [push_history]
  split
  · rcases h with _ | ⟨a, t⟩
    · rename_i hc
      simp [gesture_buffer_size] at hc
    · simp only [List.cons_append, List.tail_cons]
      exact List.getLast?_concat _
  · exact List.getLast?_concat _

theorem push_history_ne_nil (h : List String) (g : String) : push_history h g ≠ [] := by
  intro he
  have hlast := push_history_getLast h g
  rw [he] at hlast
  simp at hlast

theorem mem_push_history {h : List String} {g x : String}
    (hx : x ∈ push_history h g) : x ∈ h ∨ x = g := by
  have hx2 : x ∈ h ++ [g] := by
    by_cases hc : gesture_buffer_size < (h ++ [g]).length
    · simp only [push_history, if_pos hc] at hx
      exact List.mem_of_mem_tail hx
    · simpa only [push_history, if_neg hc] using hx
  simpa using List.mem_append.mp hx2

theorem push_history_all {h : List String} {g : String} (hh : ∀ x ∈ h, x = g) :
    ∀ x ∈ push_history h g, x = g := by
  intro x hx
  rcases mem_push_history hx with h1 | h1
  · exact hh x h1
  · exact h1

/-- Every enumeration of the distinct elements of an all-`g` nonempty buffer
is `[g]`-like, so the majority vote returns `g` whatever the set order. -/
theorem stabilized_all_eq (b : List String) (g : String) (hb : b ≠ [])
    (hall : ∀ x ∈ b, x = g) (ord : List String) (hord : SetOrder b ord) :
    stabilized_label b ord = some g := by
  obtain ⟨x, hx⟩ := List.exists_mem_of_ne_nil b hb
  have hgb : g ∈ b := (hall x hx) ▸ hx
  apply pyMaxKey_eq_max
  · exact hord.2.2 g hgb
  · intro y hy
    exact Or.inl (hall y (hord.2.1 y hy))

/-- C6: the gesture history keeps at most the `gesture_buffer_size = 5` most
recent raw labels (one append per frame; at capacity the oldest entry is
evicted and the new label kept), and feeding the sequence
[fist, fist, point, fist, fist] into the initially empty window yields
stabilized label fist (count 3 of 5) for every iteration order CPython can
give `set(history)`. -/
theorem c6_stabilizer_window :
    (∀ (h : List String) (g : String), h.length ≤ gesture_buffer_size →
        (push_history h g).length ≤ gesture_buffer_size) ∧
    (∀ (h : List String) (g : String), h.length = gesture_buffer_size →
        push_history h g = h.tail ++ [g]) ∧
    List.foldl push_history [] ["fist", "fist", "point", "fist", "fist"] =
      ["fist", "fist", "point", "fist", "fist"] ∧
    (∀ ord, SetOrder ["fist", "fist", "point", "fist", "fist"] ord →
      stabilized_label ["fist", "fist", "point", "fist", "fist"] ord = some "fist") := by
  refine ⟨?_, ?_, rfl, ?_⟩
  · intro h g hle
    by_cases hc : gesture_buffer_size < (h ++ [g]).length
    · unfold push_history
      rw [if_pos hc]
      simp only [List.length_tail, List.length_append, List.length_singleton,
        gesture_buffer_size] at *
      omega
    · unfold push_history
      rw [if_neg hc]
      simp only [List.length_append, List.length_singleton,
        gesture_buffer_size] at *
      omega
  · intro h g hlen
    rcases h with _ | ⟨a, t⟩
    · simp [gesture_buffer_size] at hlen
    · have hc : gesture_buffer_size < (a :: (t ++ [g])).length := by
        simp only [List.length_cons, List.length_append, List.length_singleton,
          gesture_buffer_size] at *
        omega
      simp only [push_history, List.cons_append, if_pos hc, List.tail_cons]
  · intro ord hord
    apply pyMaxKey_eq_max
    · exact hord.2.2 "fist" (by simp)
    · intro y hy
      have hyh : y = "fist" ∨ y = "point" := by
        have := hord.2.1 y hy
        simp at this
        tauto
      rcases hyh with rfl | rfl
      · exact Or.inl rfl
      · exact Or.inr (by decide)

/-- C4 counterexample: `recognize_gesture` is stateful, so two successive
calls on the same landmark list need not agree.  Feed point, point, point,
fist frames (histories shown explicitly), then call twice more with the
fist frame: the fifth call returns point (count 3 against 2) and the sixth
returns fist (count 3 against 2 after eviction), for every iteration order
of `set(history)`; so the two successive calls on the unchanged fist frame
return different labels. -/
theorem c4_counterexample :
    raw_gesture point_lms = Except.ok "point" ∧
    raw_gesture fist_lms = Except.ok "fist" ∧
    List.foldl push_history [] ["point", "point", "point", "fist"] =
      ["point", "point", "point", "fist"] ∧
    push_history ["point", "point", "point", "fist"] "fist" =
      ["point", "point", "point", "fist", "fist"] ∧
    push_history ["point", "point", "point", "fist", "fist"] "fist" =
      ["point", "point", "fist", "fist", "fist"] ∧
    (∀ ord, SetOrder ["point", "point", "point", "fist", "fist"] ord →
      stabilized_label ["point", "point", "point", "fist", "fist"] ord = some "point") ∧
    (∀ ord, SetOrder ["point", "point", "fist", "fist", "fist"] ord →
      stabilized_label ["point", "point", "fist", "fist", "fist"] ord = some "fist") ∧
    "point" ≠ "fist" := by
  refine ⟨rfl, rfl, rfl, rfl, rfl, ?_, ?_, by decide⟩
  · intro ord hord
    apply pyMaxKey_eq_max
    · exact hord.2.2 "point" (by simp)
    · intro y hy
      have hyh : y = "point" ∨ y = "fist" := by
        have := hord.2.1 y hy
        simp at this
        tauto
      rcases hyh with rfl | rfl
      · exact Or.inl rfl
      · exact Or.inr (by decide)
  · intro ord hord
    apply pyMaxKey_eq_max
    · exact hord.2.2 "fist" (by simp)
    · intro y hy
      have hyh : y = "point" ∨ y = "fist" := by
        have := hord.2.1 y hy
        simp at this
        tauto
      rcases hyh with rfl | rfl
      · exact Or.inr (by decide)
      · exact Or.inl rfl

/-- C4 amended: the raw static classification of a fixed frame is a fixed
label `g`, and two successive `recognize_gesture` calls on that same frame
return equal (stabilized) results whenever every label already in the
history equals `g` — in particular from the initial empty history; with a
mixed history the two stabilized results can differ (see the
counterexample). -/
theorem c4_amended_deterministic (l : List (Int × Int)) (g : String)
    (h : List String) (hraw : raw_gesture l = Except.ok g) (hh : ∀ x ∈ h, x = g)
    (ord1 ord2 : List String) (h1 : SetOrder (push_history h g) ord1)
    (h2 : SetOrder (push_history (push_history h g) g) ord2) :
    stabilized_label (push_history h g) ord1 = some g ∧
    stabilized_label (push_history (push_history h g) g) ord2 = some g :=
  ⟨stabilized_all_eq _ g (push_history_ne_nil h g) (push_history_all hh) ord1 h1,
   stabilized_all_eq _ g (push_history_ne_nil _ g)
     (push_history_all (push_history_all hh)) ord2 h2⟩

/-- C4 witness: the amended determinism theorem evaluated from the empty
history on the concrete fist frame. -/
theorem c4_amended_witness :
    stabilized_label (push_history [] "fist") ["fist"] = some "fist" ∧
    stabilized_label (push_history (push_history [] "fist") "fist") ["fist"] =
      some "fist" :=
  c4_amended_deterministic fist_lms "fist" [] rfl (by simp) ["fist"] ["fist"]
    (by decide) (by decide)

/-- State of `GestureController`: `last_gesture` starts as `None`,
`gesture_start_time` as `None` and is cleared to `None` when an action
fires.  Time stamps (`time.time()`) are modelled as rationals. -/
structure GCState where
  last_gesture : Option String
  gesture_start_time : Option ℚ
  deriving DecidableEq

def initGC : GCState := ⟨none, none⟩

/-- `GestureController.min_gesture_duration` (1.0 second). -/
def min_gesture_duration : ℚ := 1

/-- `GestureController.gesture_actions`: the dict built in `__init__`,
mapping each handled label to the string its handler returns (every
handler ignores the landmarks). -/
def gesture_actions (g : String) : Option String :=
  if g = "fist" then some "Fist detected - Action: Reset"
  else if g = "open_hand" then some "Open hand detected - Action: Stop/Pause"
  else if g = "point" then some "Point detected - Action: Select/Click"
  else if g = "peace" then some "Peace sign detected - Action: Victory/Confirm"
  else if g = "thumbs_up" then some "Thumbs up detected - Action: Approve/Like"
  else if g = "one" then some "One finger detected - Action: Option 1"
  else if g = "two" then some "Two fingers detected - Action: Option 2"
  else if g = "three" then some "Three fingers detected - Action: Option 3"
  else if g = "four" then some "Four fingers detected - Action: Option 4"
  else none

/-- `GestureController.process_gesture` at time `now`: a changed label
resets the hold and returns `None`; with an unchanged label, a truthy
start time (Python: not `None` and not `0.0`) held for at least
`min_gesture_duration` fires the mapped action once and clears the start
time; otherwise `None`. -/
def process_gesture (s : GCState) (gesture : String) (now : ℚ) :
    Option String × GCState :=
  if s.last_gesture ≠ some gesture then
    (none, ⟨some gesture, some now⟩)
  else
    match s.gesture_start_time with
    | none => (none, s)
    | some t =>
      if t ≠ 0 ∧ min_gesture_duration ≤ now - t then
        match gesture_actions gesture with
        | some r => (some r, ⟨s.last_gesture, none⟩)
        | none => (none, s)
      else (none, s)

/-- The sequence of results of `process_gesture` over a list of
(label, time) calls, threading the controller state. -/
def run_outputs (s : GCState) : List (String × ℚ) → List (Option String)
  | [] => []
  | c :: cs =>
    (process_gesture s c.1 c.2).1 :: run_outputs (process_gesture s c.1 c.2).2 cs

/-- How many calls returned an action (a non-`None` result). -/
def countSome : List (Option String) → Nat
  | [] => 0
  | none :: rs => countSome rs
  | some _ :: rs => 1 + countSome rs

theorem countSome_all_none (ts : List ℚ) :
    countSome (ts.map fun _ => (none : Option String)) = 0 := by
  induction ts with
  | nil => rfl
  | cons t ts ih => simpa [countSome] using ih

/-- After a fire the state is (label, no start time): as long as the same
label keeps arriving, every further result is `None` and the state is
unchanged. -/
theorem run_outputs_after_fire (g : String) (ts : List ℚ) :
    run_outputs ⟨some g, none⟩ (ts.map fun t => (g, t)) =
      ts.map fun _ => (none : Option String) := by
  induction ts with
  | nil => rfl
  | cons t ts ih =>
    simp only [List.map_cons, run_outputs, process_gesture]
    simp only [ne_eq, not_true_eq_false, if_neg]
    simpa using ih

theorem hold_fires_at_most_once (s : GCState) (g : String) (ts : List ℚ) :
    countSome (run_outputs s (ts.map fun t => (g, t))) ≤ 1 := by
  induction ts generalizing s with
  | nil => simp [run_outputs, countSome]
  | cons t ts ih =>
    simp only [List.map_cons, run_outputs]
    by_cases hlast : s.last_gesture ≠ some g
    · simp only [process_gesture, if_pos hlast, countSome]
      exact ih _
    · push_neg at hlast
      rcases hstart : s.gesture_start_time with _ | t0
      · simp only [process_gesture, hlast, ne_eq, not_true_eq_false, if_neg,
          not_false_eq_true, hstart, countSome]
        exact ih _
      · by_cases hcond : t0 ≠ 0 ∧ min_gesture_duration ≤ t - t0
        · rcases hact : gesture_actions g with _ | r
          · simp only [process_gesture, hlast, ne_eq, not_true_eq_false, if_neg,
              not_false_eq_true, hstart, if_pos hcond, hact, countSome]
            exact ih _
          · simp only [process_gesture, hlast, ne_eq, not_true_eq_false, if_neg,
              not_false_eq_true, hstart, if_pos hcond, hact, countSome]
            rw [run_outputs_after_fire, countSome_all_none]
        · simp only [process_gesture, hlast, ne_eq, not_true_eq_false, if_neg,
            not_false_eq_true, hstart, if_neg hcond, countSome]
          exact ih _

/-- C1: during any run of `process_gesture` calls that all carry the same
label (a continuous hold), at most one non-`None` action result is
returned, from any starting state; and on the concrete trace below,
holding open_hand fires the stop/pause action exactly once at the first
call at least 1.0s after the hold began, further holding returns `None`,
and a single fist call re-arms the controller so a new open_hand hold
fires again. -/
theorem c1_hold_fire_once :
    (∀ (s : GCState) (g : String) (ts : List ℚ),
        countSome (run_outputs s (ts.map fun t => (g, t))) ≤ 1) ∧
    run_outputs initGC
        [("open_hand", 3), ("open_hand", 4), ("open_hand", 5), ("fist", 6),
         ("open_hand", 7), ("open_hand", 8)] =
      [none, some "Open hand detected - Action: Stop/Pause", none, none, none,
       some "Open hand detected - Action: Stop/Pause"] := by
  refine ⟨hold_fires_at_most_once, ?_⟩
  have h1 : process_gesture initGC "open_hand" 3 =
      (none, ⟨some "open_hand", some 3⟩) := by
    simp [process_gesture, initGC]
  have h2 : process_gesture ⟨some "open_hand", some 3⟩ "open_hand" 4 =
      (some "Open hand detected - Action: Stop/Pause", ⟨some "open_hand", none⟩) := by
    norm_num [process_gesture, gesture_actions, min_gesture_duration]
    rfl
  have h3 : process_gesture ⟨some "open_hand", none⟩ "open_hand" 5 =
      (none, ⟨some "open_hand", none⟩) := by
    simp [process_gesture]
  have h4 : process_gesture ⟨some "open_hand", none⟩ "fist" 6 =
      (none, ⟨some "fist", some 6⟩) := by
    simp [process_gesture]
  have h5 : process_gesture ⟨some "fist", some 6⟩ "open_hand" 7 =
      (none, ⟨some "open_hand", some 7⟩) := by
    simp [process_gesture]
  have h6 : process_gesture ⟨some "open_hand", some 7⟩ "open_hand" 8 =
      (some "Open hand detected - Action: Stop/Pause", ⟨some "open_hand", none⟩) := by
    norm_num [process_gesture, gesture_actions, min_gesture_duration]
    rfl
  simp [run_outputs, h1, h2, h3, h4, h5, h6]

/-- `get_hand_center` (textually identical in `HandTracker` and
`AdvancedGestureRecognizer`): Python floor division `//` of the coordinate
sums by the number of points; on an empty list the division raises
`ZeroDivisionError`. -/
def get_hand_center (pts : List (Int × Int)) : Except PyError (Int × Int) :=
  if pts.length = 0 then Except.error PyError.zeroDivision
  else
    Except.ok (Int.fdiv ((pts.map Prod.fst).sum) (pts.length : Int),
      Int.fdiv ((pts.map Prod.snd).sum) (pts.length : Int))

/-- `HandTracker.get_bounding_box`: (min x, min y, max x, max y); Python
`min`/`max` of an empty sequence raise `ValueError`. -/
def get_bounding_box (pts : List (Int × Int)) :
    Except PyError (Int × Int × Int × Int) :=
  match pts with
  | [] => Except.error PyError.valueError
  | q :: rest =>
    Except.ok ((rest.map Prod.fst).foldl min q.1, (rest.map Prod.snd).foldl min q.2,
      (rest.map Prod.fst).foldl max q.1, (rest.map Prod.snd).foldl max q.2)

/-- `AdvancedGestureRecognizer.position_history_size` (30). -/
def position_history_size : Nat := 30

/-- The position-history update at the top of
`recognize_advanced_gestures`: append the current center, then `pop(0)`
once when the history exceeds its capacity. -/
def push_position (hist : List (Int × Int)) (c : Int × Int) : List (Int × Int) :=
  if position_history_size < (hist ++ [c]).length then (hist ++ [c]).tail
  else hist ++ [c]

/-- `AdvancedGestureRecognizer.calculate_hand_velocity`: `(0, 0)` with
fewer than 2 history samples, otherwise the current center minus
`history[-1]`, the most recently stored center. -/
def calculate_hand_velocity (hist : List (Int × Int)) (l : List (Int × Int)) :
    Except PyError (Int × Int) :=
  if hist.length < 2 then Except.ok (0, 0)
  else
    match get_hand_center l, hist.getLast? with
    | Except.ok c, some prev => Except.ok (c.1 - prev.1, c.2 - prev.2)
    | Except.error e, _ => Except.error e
    | _, none => Except.error PyError.indexError

/-- `detect_swipe_right`: `velocity[0] > 20 and abs(velocity[1]) < 10`. -/
def detect_swipe_right (hist : List (Int × Int)) (l : List (Int × Int)) :
    Except PyError Bool :=
  match calculate_hand_velocity hist l with
  | Except.ok v => Except.ok (decide (20 < v.1 ∧ |v.2| < 10))
  | Except.error e => Except.error e

/-- `detect_swipe_left`: `velocity[0] < -20 and abs(velocity[1]) < 10`. -/
def detect_swipe_left (hist : List (Int × Int)) (l : List (Int × Int)) :
    Except PyError Bool :=
  match calculate_hand_velocity hist l with
  | Except.ok v => Except.ok (decide (v.1 < -20 ∧ |v.2| < 10))
  | Except.error e => Except.error e

/-- The swipe fragment of `recognize_advanced_gestures`: the current
center is appended to the position history first (lines 181-184) and the
detectors then run against the updated history. -/
def swipe_flags (hist : List (Int × Int)) (l : List (Int × Int)) :
    Except PyError (Bool × Bool) :=
  match get_hand_center l with
  | Except.error e => Except.error e
  | Except.ok c =>
    match detect_swipe_right (push_position hist c) l,
        detect_swipe_left (push_position hist c) l with
    | Except.ok r, Except.ok lf => Except.ok (r, lf)
    | Except.error e, _ => Except.error e
    | _, Except.error e => Except.error e

/-- Velocity as section 4.4 of the spec defines it: the vector difference
between the two most recent stored centers, `(0, 0)` when fewer than two
samples exist. -/
def spec_velocity (hist : List (Int × Int)) : Int × Int :=
  match hist.reverse with
  | a :: b :: _ => (a.1 - b.1, a.2 - b.2)
  | _ => (0, 0)

theorem push_position_getLast (hist : List (Int × Int)) (c : Int × Int) :
    (push_position hist c).getLast? = some c := by
  simp only [push_position]
  split
  · rcases hist with _ | ⟨a, t⟩
    · rename_i hc
      simp [position_history_size] at hc
    · simp only [List.cons_append, List.tail_cons]
      exact List.getLast?_concat _
  · exact List.getLast?_concat _

/-- Inside `recognize_advanced_gestures` the history already ends with the
current center, so the computed velocity is always `(0, 0)`. -/
theorem velocity_after_push (hist : List (Int × Int)) (l : List (Int × Int))
    (c : Int × Int) (hc : get_hand_center l = Except.ok c) :
    calculate_hand_velocity (push_position hist c) l = Except.ok (0, 0) := by
  unfold calculate_hand_velocity
  split
  · rfl
  · rw [hc, push_position_getLast]
    simp

/-- C5 (code bug): `recognize_advanced_gestures` appends the current center
to the position history before running the detectors, so
`calculate_hand_velocity` subtracts the current center from itself: the
swipe detectors always report false, even on the concrete input below
whose spec-level velocity (difference of the two most recent centers) is
(100, 0), well past the threshold. -/
theorem c5_swipe_detectors_dead :
    (∀ (hist : List (Int × Int)) (l : List (Int × Int)) (c : Int × Int),
        get_hand_center l = Except.ok c →
        swipe_flags hist l = Except.ok (false, false)) ∧
    get_hand_center (List.replicate 21 ((100 : Int), (0 : Int))) =
      Except.ok (100, 0) ∧
    push_position [(0, 0), (0, 0)] (100, 0) = [(0, 0), (0, 0), (100, 0)] ∧
    spec_velocity [(0, 0), (0, 0), (100, 0)] = (100, 0) ∧
    swipe_flags [(0, 0), (0, 0)] (List.replicate 21 ((100 : Int), (0 : Int))) =
      Except.ok (false, false) ∧
    20 < (100 : Int) ∧ |(0 : Int)| < 10 := by
  refine ⟨?_, rfl, rfl, rfl, rfl, by decide, by decide⟩
  intro hist l c hc
  unfold swipe_flags detect_swipe_right detect_swipe_left
  simp only [hc, velocity_after_push hist l c hc]
  norm_num

/-- C8 counterexample: on the empty list `get_hand_center` hits Python's
division by zero and `get_bounding_box` the `ValueError` of `min` over an
empty sequence; neither failure is the spec's `EmptyInputError` (which
exists nowhere in the code). -/
theorem c8_counterexample :
    get_hand_center [] = Except.error PyError.zeroDivision ∧
    get_bounding_box [] = Except.error PyError.valueError ∧
    PyError.zeroDivision ≠ PyError.emptyInput ∧
    PyError.valueError ≠ PyError.emptyInput :=
  ⟨rfl, rfl, by decide, by decide⟩

/-- C8 amended: the empty list makes `get_hand_center` fail with the
arithmetic fault `ZeroDivisionError` and `get_bounding_box` with
`ValueError` — not with an `EmptyInputError` — while every non-empty list
succeeds in both utilities. -/
theorem c8_amended_empty_faults :
    get_hand_center [] = Except.error PyError.zeroDivision ∧
    get_bounding_box [] = Except.error PyError.valueError ∧
    (∀ pts : List (Int × Int), pts ≠ [] →
      (∃ c, get_hand_center pts = Except.ok c) ∧
      (∃ b, get_bounding_box pts = Except.ok b)) := by
  refine ⟨rfl, rfl, ?_⟩
  intro pts hne
  constructor
  · refine ⟨(Int.fdiv ((pts.map Prod.fst).sum) (pts.length : Int),
      Int.fdiv ((pts.map Prod.snd).sum) (pts.length : Int)), ?_⟩
    unfold get_hand_center
    rw [if_neg (fun h => hne (List.length_eq_zero.mp h))]
  · rcases pts with _ | ⟨q, rest⟩
    · exact absurd rfl hne
    · exact ⟨_, rfl⟩

theorem fdiv_eq_floor (a : ℤ) (n : ℕ) :
    Int.fdiv a (n : Int) = ⌊(a : ℚ) / (n : ℚ)⌋ := by
  rw [Int.fdiv_eq_ediv _ (Int.natCast_nonneg n), Rat.floor_intCast_div_natCast]

/-- C9 corrected: `get_hand_center` returns the floor of the arithmetic
mean of each coordinate (Python integer division `//`), not the exact
mean; on the spec's concrete square the two coincide, giving (5, 5), and
the bounding box of the same points is (0, 0, 10, 10). -/
theorem c9_center_floor_mean :
    (∀ pts : List (Int × Int), pts ≠ [] →
      get_hand_center pts = Except.ok
        (⌊(((pts.map Prod.fst).sum : ℚ) / (pts.length : ℚ))⌋,
         ⌊(((pts.map Prod.snd).sum : ℚ) / (pts.length : ℚ))⌋)) ∧
    get_hand_center [(0, 0), (10, 0), (10, 10), (0, 10)] = Except.ok (5, 5) ∧
    get_bounding_box [(0, 0), (10, 0), (10, 10), (0, 10)] =
      Except.ok (0, 0, 10, 10) := by
  refine ⟨?_, rfl, rfl⟩
  intro pts hne
  unfold get_hand_center
  rw [if_neg (fun h => hne (List.length_eq_zero.mp h))]
  rw [fdiv_eq_floor, fdiv_eq_floor]

/-- C9 counterexample: the center of [(0,0),(1,0)] is (0, 0) by floor
division, while the arithmetic mean of the x coordinates is 1/2, which is
not 0: the code does not return the arithmetic mean. -/
theorem c9_counterexample :
    get_hand_center [(0, 0), (1, 0)] = Except.ok (0, 0) ∧
    ((([((0 : Int), (0 : Int)), (1, 0)].map Prod.fst).sum : ℚ) /
        (([((0 : Int), (0 : Int)), (1, 0)] : List (Int × Int)).length : ℚ) = 1 / 2) ∧
    (0 : ℚ) ≠ 1 / 2 :=
  ⟨rfl, by norm_num, by norm_num⟩
